import Mathlib

/-!
Verification development for the `vision_model_flops` repository.

The repository consists of three short Python scripts:

* `src/main.py` — batch analyzer using `timm` + `fvcore.nn.FlopCountAnalysis`;
* `src/model_analyzer.py` — batch analyzer using `timm` + `thop.profile`;
* `rec/plot_model_analysis.py` — renderer that reads the JSON report and
  produces bar charts and a table image.

The external libraries (`timm`, `fvcore`, `thop`, `matplotlib`, `json`,
`yaml`) are capability boundaries: model construction and operation counting
are modelled as oracle parameters (a function from the model identifier to
either a profiling result or the message of a raised exception), the JSON
text codec is modelled at the level of JSON values, and chart rendering is
modelled by the data (bars, labels, value annotations, written file names)
the matplotlib calls are given.  Python ints are modelled as `ℤ`/`ℕ` and the
float values produced by `thop` and by the division operators as `ℚ`; the
concrete values appearing in the claims are all exactly representable, so
this is faithful for them.
-/

/-- Result of the external `fvcore.nn.FlopCountAnalysis` pass, as consumed by
`src/main.py`: `flops.total()`, the per-operator breakdown
`dict(flops.by_operator())` and the per-module breakdown
`dict(flops.by_module())`, together with the parameter count
`sum(p.numel() for p in model.parameters())`.  All are counts, hence `ℕ`. -/
structure FvcoreOut where
  total_params : ℕ
  total_flops : ℕ
  by_operator : List (String × ℕ)
  by_module : List (String × ℕ)
deriving DecidableEq, Repr

/-- Result of the external `thop.profile` call in `src/model_analyzer.py`:
the pair `macs, params`, which Python returns as floats (modelled as `ℚ`). -/
structure ThopOut where
  macs : ℚ
  params : ℚ
deriving DecidableEq, Repr

/-- Python's `int(...)` applied to a numeric value: truncation toward zero. -/
def pyInt (q : ℚ) : ℤ := if 0 ≤ q then ⌊q⌋ else ⌈q⌉

/-- One record of the analysis report.  Both `analyze_model` variants return a
Python dict; a field being `none` models the key being absent from the dict.
`total_params`, `total_flops`, `total_macs` are ints in the source;
`flops_by_operator` / `flops_by_module` (fvcore variant only) map operator and
module names to counts; `gflops` / `gmacs` (thop variant only) are floats. -/
structure AnalysisRecord where
  model_name : String
  total_params : Option ℤ := none
  total_flops : Option ℤ := none
  total_macs : Option ℤ := none
  flops_by_operator : Option (List (String × ℤ)) := none
  flops_by_module : Option (List (String × ℤ)) := none
  gflops : Option ℚ := none
  gmacs : Option ℚ := none
  error : Option String := none
deriving DecidableEq, Repr

/-- Keys present in the record's underlying Python dict, in a fixed canonical
order (used to compare the shape of records across the two variants). -/
def AnalysisRecord.presentFields (r : AnalysisRecord) : List String :=
  ["model_name"]
    ++ (if r.total_params.isSome then ["total_params"] else [])
    ++ (if r.total_flops.isSome then ["total_flops"] else [])
    ++ (if r.total_macs.isSome then ["total_macs"] else [])
    ++ (if r.flops_by_operator.isSome then ["flops_by_operator"] else [])
    ++ (if r.flops_by_module.isSome then ["flops_by_module"] else [])
    ++ (if r.gflops.isSome then ["gflops"] else [])
    ++ (if r.gmacs.isSome then ["gmacs"] else [])
    ++ (if r.error.isSome then ["error"] else [])

/-- Embedding of `analyze_model` from `src/main.py` (fvcore variant).  The
oracle stands for lines 19–38 (model construction, dummy input, parameter
count, `FlopCountAnalysis`); `.error e` means one of those raised an
exception whose `str(e)` is `e`.  On success the record carries
`total_macs = total_flops // 2` (floor division, line 42) and the two
breakdown dicts; on exception only `model_name` and `error` (lines 52–56). -/
def MainPy.analyze_model (oracle : String → Except String FvcoreOut)
    (model_name : String) : AnalysisRecord :=
  match oracle model_name with
  | .ok flops =>
      { model_name := model_name
        total_params := some (flops.total_params : ℤ)
        total_flops := some (flops.total_flops : ℤ)
        total_macs := some ((flops.total_flops / 2 : ℕ) : ℤ)
        flops_by_operator := some (flops.by_operator.map (fun kv => (kv.1, (kv.2 : ℤ))))
        flops_by_module := some (flops.by_module.map (fun kv => (kv.1, (kv.2 : ℤ)))) }
  | .error e => { model_name := model_name, error := some e }

/-- Embedding of `analyze_model` from `src/model_analyzer.py` (thop variant).
The oracle stands for lines 20–27 (model construction, dummy input,
`thop.profile`).  On success: `flops = macs * 2`, `gflops = flops / 1E9`,
`gmacs = macs / 1E9`, and the int fields are `int(params)`, `int(flops)`,
`int(macs)` (lines 29–43); on exception only `model_name` and `error`. -/
def ModelAnalyzer.analyze_model (oracle : String → Except String ThopOut)
    (model_name : String) : AnalysisRecord :=
  match oracle model_name with
  | .ok t =>
      let flops : ℚ := t.macs * 2
      { model_name := model_name
        total_params := some (pyInt t.params)
        total_flops := some (pyInt flops)
        total_macs := some (pyInt t.macs)
        gflops := some (flops / 1000000000)
        gmacs := some (t.macs / 1000000000) }
  | .error e => { model_name := model_name, error := some e }

/-- Observable outcome of one run of a batch entry point: the lines printed
to standard output and the report written to the output JSON file (`none`
when no file is written). -/
structure MainOutput where
  printed : List String
  written : Option (List AnalysisRecord)
deriving DecidableEq, Repr

/-- Outcome when the models list is empty or missing (`main.py` lines 73–75,
`model_analyzer.py` lines 65–67): print the message and return, writing
nothing. -/
def noModelsOutput : MainOutput :=
  { printed := ["No models specified in the configuration file."], written := none }

/-- Python's `config.get("models", [])`.  The configuration's `models` entry
is modelled as `Option (Option (List String))`: `none` = key absent,
`some none` = key present with value `null` (YAML), `some (some l)` = a list.
`dict.get` returns the default `[]` only when the key is absent. -/
def pyGetModels : Option (Option (List String)) → Option (List String)
  | none => some []
  | some v => v

/-- Shared body of the two `main` functions (`main.py` lines 69–89,
`model_analyzer.py` lines 61–81), parametrised by the per-model analyzer.
`if not model_names` is true for Python `None` and for the empty list; the
loop prints a progress line per model, appends `analyze_model`'s record, and
the full list is then written to the output file. -/
def batchRun (analyze : String → AnalysisRecord)
    (models : Option (Option (List String))) (outPath : String) : MainOutput :=
  match pyGetModels models with
  | none => noModelsOutput
  | some model_names =>
      if model_names.isEmpty then noModelsOutput
      else
        { printed := model_names.map (fun n => "Analyzing model: " ++ n)
            ++ ["Analysis completed. Results saved to " ++ outPath]
          written := some (model_names.map analyze) }

/-- Entry point of `src/main.py` after config loading and argument parsing. -/
def MainPy.main (oracle : String → Except String FvcoreOut)
    (models : Option (Option (List String))) (outPath : String) : MainOutput :=
  batchRun (MainPy.analyze_model oracle) models outPath

/-- Entry point of `src/model_analyzer.py` after config loading and argument
parsing. -/
def ModelAnalyzer.main (oracle : String → Except String ThopOut)
    (models : Option (Option (List String))) (outPath : String) : MainOutput :=
  batchRun (ModelAnalyzer.analyze_model oracle) models outPath

/-- Declaration of a shallow JSON value; models the Python `json` library's
data model (objects keep key insertion order, as Python dicts do). -/
inductive Json where
  | null
  | bool (b : Bool)
  | num (q : ℚ)
  | str (s : String)
  | arr (elems : List Json)
  | obj (entries : List (String × Json))

/-- Helper for serialization: a dict key that is present iff the record field
is present. -/
def optField (k : String) (v : Option Json) : List (String × Json) :=
  match v with
  | none => []
  | some j => [(k, j)]

/-- Serialization of one breakdown dict (operator or module name to count). -/
def intEntries (l : List (String × ℤ)) : List (String × Json) :=
  l.map (fun kv => (kv.1, Json.num (kv.2 : ℚ)))

/-- Entries of the JSON object written for one record: the record's dict
with exactly its present keys, in insertion order. -/
def recordEntries (r : AnalysisRecord) : List (String × Json) :=
  ("model_name", Json.str r.model_name)
    :: (optField "total_params" (r.total_params.map (fun n => Json.num (n : ℚ)))
    ++ optField "total_flops" (r.total_flops.map (fun n => Json.num (n : ℚ)))
    ++ optField "total_macs" (r.total_macs.map (fun n => Json.num (n : ℚ)))
    ++ optField "flops_by_operator" (r.flops_by_operator.map (fun l => Json.obj (intEntries l)))
    ++ optField "flops_by_module" (r.flops_by_module.map (fun l => Json.obj (intEntries l)))
    ++ optField "gflops" (r.gflops.map Json.num)
    ++ optField "gmacs" (r.gmacs.map Json.num)
    ++ optField "error" (r.error.map Json.str))

/-- JSON value written for one record by `json.dump(results, f, indent=2)`
(`main.py` lines 84–87 / `model_analyzer.py` lines 76–79), modelled at the
JSON-value level. -/
def recordToJson (r : AnalysisRecord) : Json :=
  Json.obj (recordEntries r)

/-- The JSON array the batch runner writes for the whole report. -/
def reportToJson (rs : List AnalysisRecord) : Json :=
  Json.arr (rs.map recordToJson)

/-- Key lookup in a JSON object, as Python dict indexing after `json.load`. -/
def lookupKey (entries : List (String × Json)) (k : String) : Option Json :=
  match entries with
  | [] => none
  | kv :: rest => if kv.1 == k then some kv.2 else lookupKey rest k

/-- Reading a JSON number back as a Python int (the report's count fields are
written from ints, i.e. numbers with denominator 1). -/
def asInt (j : Json) : Option ℤ :=
  match j with
  | .num q => if q.den = 1 then some q.num else none
  | _ => none

/-- Reading a breakdown dict back from JSON. -/
def decodeIntEntries : List (String × Json) → Option (List (String × ℤ))
  | [] => some []
  | kv :: rest =>
      match asInt kv.2, decodeIntEntries rest with
      | some n, some l => some ((kv.1, n) :: l)
      | _, _ => none

/-- Reading an optional int field of a record back from JSON. -/
def decodeOptInt (entries : List (String × Json)) (k : String) : Option (Option ℤ) :=
  match lookupKey entries k with
  | none => some none
  | some j => (asInt j).map some

/-- Reading an optional float field of a record back from JSON. -/
def decodeOptRat (entries : List (String × Json)) (k : String) : Option (Option ℚ) :=
  match lookupKey entries k with
  | none => some none
  | some (.num q) => some (some q)
  | some _ => none

/-- Reading an optional breakdown-dict field of a record back from JSON. -/
def decodeOptMap (entries : List (String × Json)) (k : String) :
    Option (Option (List (String × ℤ))) :=
  match lookupKey entries k with
  | none => some none
  | some (.obj l) => (decodeIntEntries l).map some
  | some _ => none

/-- Reading an optional string field of a record back from JSON. -/
def decodeOptStr (entries : List (String × Json)) (k : String) : Option (Option String) :=
  match lookupKey entries k with
  | none => some none
  | some (.str s) => some (some s)
  | some _ => none

/-- Typed view of one parsed record, as the renderer's `json.load` result
(one dict of the loaded array) is accessed by the plotting code. -/
def jsonToRecord (j : Json) : Option AnalysisRecord :=
  match j with
  | .obj entries =>
      match lookupKey entries "model_name" with
      | some (.str name) =>
          match decodeOptInt entries "total_params", decodeOptInt entries "total_flops",
                decodeOptInt entries "total_macs", decodeOptMap entries "flops_by_operator",
                decodeOptMap entries "flops_by_module", decodeOptRat entries "gflops",
                decodeOptRat entries "gmacs", decodeOptStr entries "error" with
          | some p, some f, some mc, some bo, some bm, some g, some gm, some e =>
              some { model_name := name, total_params := p, total_flops := f,
                     total_macs := mc, flops_by_operator := bo, flops_by_module := bm,
                     gflops := g, gmacs := gm, error := e }
          | _, _, _, _, _, _, _, _ => none
      | _ => none
  | _ => none

/-- Parsing of a loaded JSON array into records, element by element. -/
def decodeRecords : List Json → Option (List AnalysisRecord)
  | [] => some []
  | j :: rest =>
      match jsonToRecord j, decodeRecords rest with
      | some r, some rs => some (r :: rs)
      | _, _ => none

/-- The renderer's `json.load(f)` (`plot_model_analysis.py` lines 12–13),
modelled at the JSON-value level: the loaded value must be an array of
record-shaped objects to be usable by the plotting code. -/
def jsonToReport (j : Json) : Option (List AnalysisRecord) :=
  match j with
  | .arr elems => decodeRecords elems
  | _ => none

/-- Rounding of `100 * q` to the nearest integer, ties to even, computed from
the numerator and denominator.  This is the value CPython's fixed-point
formatting `.2f` displays (exact for the decimal-representable values this
repository's reports contain). -/
def roundHalfEven100 (q : ℚ) : ℤ :=
  let n := 100 * q.num
  let d := (q.den : ℤ)
  let f := Int.ediv n d
  let r := Int.emod n d
  if 2 * r < d then f
  else if d < 2 * r then f + 1
  else if Int.emod f 2 = 0 then f else f + 1

/-- Python's format specifier chain `:.2f` on a non-negative value: two
digits after the decimal point. -/
def fmtTwoDec (q : ℚ) : String :=
  let n := roundHalfEven100 q
  let whole := Int.ediv n 100
  let frac := (Int.emod n 100).toNat
  toString whole ++ "." ++ (if frac < 10 then "0" ++ toString frac else toString frac)

/-- One bar of a rendered bar chart: its x-axis label (the model name), its
height, and the text annotated above it (`plt.text(..., f-string with value
formatted to two decimals)`, `plot_model_analysis.py` lines 36–39). -/
structure Bar where
  label : String
  value : ℚ
  annot : String
deriving DecidableEq, Repr

/-- Python's `model[metric_name]` on a loaded record dict, for the numeric
metrics the renderer uses; `none` models a `KeyError`. -/
def getMetric (m : AnalysisRecord) (metric_name : String) : Option ℚ :=
  if metric_name == "total_params" then m.total_params.map (fun n => (n : ℚ))
  else if metric_name == "total_flops" then m.total_flops.map (fun n => (n : ℚ))
  else if metric_name == "total_macs" then m.total_macs.map (fun n => (n : ℚ))
  else if metric_name == "gflops" then m.gflops
  else if metric_name == "gmacs" then m.gmacs
  else none

/-- The list comprehension `[model[metric_name] for model in models]`
(`plot_model_analysis.py` line 25); any missing key aborts with `KeyError`. -/
def extractMetric : List AnalysisRecord → String → Option (List ℚ)
  | [], _ => some []
  | m :: rest, k =>
      match getMetric m k, extractMetric rest k with
      | some v, some vs => some (v :: vs)
      | _, _ => none

/-- Embedding of `create_bar_plot` (`plot_model_analysis.py` lines 19–53) as
the bar data it hands to matplotlib: one bar per record, values divided by
1,000,000 when the metric is `total_params`, each annotated with the value
formatted to two decimal places.  `none` models the `KeyError` raised when a
record lacks the metric key. -/
def Plot.create_bar_plot (models : List AnalysisRecord) (metric_name : String) :
    Option (List Bar) :=
  match extractMetric models metric_name with
  | none => none
  | some vals =>
      let vals2 := if metric_name == "total_params"
        then vals.map (fun v => v / 1000000) else vals
      some ((models.zip vals2).map
        (fun p => { label := p.1.model_name, value := p.2, annot := fmtTwoDec p.2 }))

/-- One row of the rendered table (`plot_model_analysis.py` lines 80–85):
model name, parameters in millions to two decimals, gflops to two decimals;
`none` models the `KeyError` when a key is missing. -/
def tableRow (m : AnalysisRecord) : Option (String × String × String) :=
  match m.total_params, m.gflops with
  | some p, some g => some (m.model_name, fmtTwoDec ((p : ℚ) / 1000000), fmtTwoDec g)
  | _, _ => none

/-- Embedding of `create_table_image` (`plot_model_analysis.py` lines 67–103)
as the row data handed to matplotlib's table. -/
def Plot.create_table_image : List AnalysisRecord → Option (List (String × String × String))
  | [] => some []
  | m :: rest =>
      match tableRow m, Plot.create_table_image rest with
      | some row, some rows => some (row :: rows)
      | _, _ => none

/-- Observable outcome of one renderer run: printed lines and the names of
the image files written to the working directory. -/
structure RenderOutput where
  printed : List String
  images : List String
deriving DecidableEq, Repr

/-- Embedding of `load_model_analysis` (`plot_model_analysis.py` lines
10–17): load the JSON report, then keep the records without an `error` key
(`[model for model in data if 'error' not in model]`). -/
def Plot.load_model_analysis (j : Json) : Option (List AnalysisRecord) :=
  (jsonToReport j).map (fun data => data.filter (fun m => m.error.isNone))

/-- Embedding of the renderer's `main` (`plot_model_analysis.py` lines
105–147): load and filter; if no valid models remain, print the message and
return without writing any image; otherwise render the two bar charts and
the table and write the grid plus the three individual files.  `Except.error`
models an uncaught exception (`KeyError` on schema mismatch). -/
def Plot.main (j : Json) : Except String RenderOutput :=
  match Plot.load_model_analysis j with
  | none => Except.error "TypeError"
  | some models =>
      if models.isEmpty then
        Except.ok { printed := ["No valid models found in the JSON file."], images := [] }
      else
        match Plot.create_bar_plot models "total_params",
              Plot.create_bar_plot models "gflops",
              Plot.create_table_image models with
        | some _, some _, some _ =>
            Except.ok { printed := ["Saved grid image to model_analysis_grid.png",
                                    "Saved individual plots as well."],
                        images := ["model_analysis_grid.png", "model_parameters.png",
                                   "model_gflops.png", "model_table.png"] }
        | _, _, _ => Except.error "KeyError"

/-! Helper lemmas about the embedded definitions, and concrete oracles used
as witnesses below. -/

theorem pyInt_nonneg {q : ℚ} (h : 0 ≤ q) : 0 ≤ pyInt q := by
  unfold pyInt
  rw [if_pos h]
  exact Int.le_floor.mpr (by exact_mod_cast h)

theorem pyInt_natCast (n : ℕ) : pyInt (n : ℚ) = n := by
  unfold pyInt
  rw [if_pos (by positivity), Int.floor_natCast]

theorem pyInt_natCast_mul_two (m : ℕ) : pyInt ((m : ℚ) * 2) = 2 * m := by
  have h : ((m : ℚ) * 2) = ((2 * m : ℕ) : ℚ) := by push_cast; ring
  rw [h, pyInt_natCast]
  push_cast
  ring

theorem fv_analyze_model_name (o : String → Except String FvcoreOut) (n : String) :
    (MainPy.analyze_model o n).model_name = n := by
  unfold MainPy.analyze_model
  cases o n <;> rfl

theorem th_analyze_model_name (o : String → Except String ThopOut) (n : String) :
    (ModelAnalyzer.analyze_model o n).model_name = n := by
  unfold ModelAnalyzer.analyze_model
  cases o n <;> rfl

theorem batchRun_written_of_ne_nil (analyze : String → AnalysisRecord)
    (names : List String) (out : String) (h : names ≠ []) :
    (batchRun analyze (some (some names)) out).written = some (names.map analyze) := by
  simp [batchRun, pyGetModels, List.isEmpty_iff, h]

/-- Oracle for a registry in which no identifier resolves: every model raises. -/
def fvOracleErr : String → Except String FvcoreOut :=
  fun _ => Except.error "model not found"

/-- Oracle for a registry in which no identifier resolves: every model raises. -/
def thOracleErr : String → Except String ThopOut :=
  fun _ => Except.error "model not found"

/-- Oracle for the spec's concrete scenario under fvcore: params = 1,000,000
and total analysed flops = 2,000,000,000 for every identifier. -/
def fvOracle2G : String → Except String FvcoreOut :=
  fun _ => Except.ok ⟨1000000, 2000000000, [("conv", 2000000000)], [("model", 2000000000)]⟩

/-- Oracle for the spec's concrete scenario under thop: macs = 1,000,000,000
and params = 1,000,000 for every identifier. -/
def thOracle1G : String → Except String ThopOut :=
  fun _ => Except.ok ⟨((1000000000 : ℕ) : ℚ), ((1000000 : ℕ) : ℚ)⟩

/-- Oracle reporting an odd total flop count (3), exposing the floor in
`total_macs = total_flops // 2`. -/
def fvOracleOdd : String → Except String FvcoreOut :=
  fun _ => Except.ok ⟨7, 3, [("conv", 3)], [("model", 3)]⟩

/-- C1: for every configuration whose models list contains N identifiers,
each batch entry point (fvcore variant and thop variant) writes a report
with exactly N records, and the i-th record's `model_name` is the i-th
configured identifier.  A nonempty list always produces a report, and any
report produced has exactly these records (for an empty list no file is
written at all, see the empty-configuration theorem). -/
theorem batch_report_one_record_per_identifier
    (names : List String) (oF : String → Except String FvcoreOut)
    (oT : String → Except String ThopOut) (out : String) (h : names ≠ []) :
    (∃ resF, (MainPy.main oF (some (some names)) out).written = some resF) ∧
    (∃ resT, (ModelAnalyzer.main oT (some (some names)) out).written = some resT) ∧
    (∀ resF, (MainPy.main oF (some (some names)) out).written = some resF →
      resF.length = names.length ∧
      ∀ i : ℕ, resF[i]?.map AnalysisRecord.model_name = names[i]?) ∧
    (∀ resT, (ModelAnalyzer.main oT (some (some names)) out).written = some resT →
      resT.length = names.length ∧
      ∀ i : ℕ, resT[i]?.map AnalysisRecord.model_name = names[i]?) := by
  have hF := batchRun_written_of_ne_nil (MainPy.analyze_model oF) names out h
  have hT := batchRun_written_of_ne_nil (ModelAnalyzer.analyze_model oT) names out h
  refine ⟨⟨_, hF⟩, ⟨_, hT⟩, ?_, ?_⟩
  · intro resF hres
    rw [MainPy.main, hF] at hres
    obtain rfl : names.map (MainPy.analyze_model oF) = resF := Option.some_injective _ hres
    refine ⟨List.length_map _ _, fun i => ?_⟩
    rw [List.getElem?_map]
    cases hn : names[i]? with
    | none => rfl
    | some n => simp [fv_analyze_model_name]
  · intro resT hres
    rw [ModelAnalyzer.main, hT] at hres
    obtain rfl : names.map (ModelAnalyzer.analyze_model oT) = resT := Option.some_injective _ hres
    refine ⟨List.length_map _ _, fun i => ?_⟩
    rw [List.getElem?_map]
    cases hn : names[i]? with
    | none => rfl
    | some n => simp [th_analyze_model_name]

theorem batch_report_one_record_per_identifier_witness :
    (["resnet18", "vit_base_patch16_224"] : List String) ≠ [] ∧
    ((∃ resF, (MainPy.main fvOracle2G
        (some (some ["resnet18", "vit_base_patch16_224"])) "model_analysis.json").written
        = some resF) ∧
    (∃ resT, (ModelAnalyzer.main thOracle1G
        (some (some ["resnet18", "vit_base_patch16_224"])) "model_analysis.json").written
        = some resT) ∧
    (∀ resF, (MainPy.main fvOracle2G
        (some (some ["resnet18", "vit_base_patch16_224"])) "model_analysis.json").written
        = some resF →
      resF.length = (["resnet18", "vit_base_patch16_224"] : List String).length ∧
      ∀ i : ℕ, resF[i]?.map AnalysisRecord.model_name
        = (["resnet18", "vit_base_patch16_224"] : List String)[i]?) ∧
    (∀ resT, (ModelAnalyzer.main thOracle1G
        (some (some ["resnet18", "vit_base_patch16_224"])) "model_analysis.json").written
        = some resT →
      resT.length = (["resnet18", "vit_base_patch16_224"] : List String).length ∧
      ∀ i : ℕ, resT[i]?.map AnalysisRecord.model_name
        = (["resnet18", "vit_base_patch16_224"] : List String)[i]?)) :=
  ⟨by decide, batch_report_one_record_per_identifier ["resnet18", "vit_base_patch16_224"]
    fvOracle2G thOracle1G "model_analysis.json" (by decide)⟩

/-- C3: if the analysis of one model raises (the oracle returns the
exception message), `analyze_model` returns a record containing only the
model name and the error string, in both variants; the batch still writes a
full-length report, with the error record occupying exactly the failed
model's slots.  So one model's failure never aborts the batch or prevents
the report file from being written. -/
theorem per_model_failure_isolated
    (oF : String → Except String FvcoreOut) (oT : String → Except String ThopOut)
    (name msg : String) (names : List String) (out : String)
    (hF : oF name = .error msg) (hT : oT name = .error msg) (hmem : name ∈ names) :
    MainPy.analyze_model oF name = { model_name := name, error := some msg } ∧
    ModelAnalyzer.analyze_model oT name = { model_name := name, error := some msg } ∧
    (∃ resF, (MainPy.main oF (some (some names)) out).written = some resF ∧
      resF.length = names.length ∧
      ∀ i : ℕ, names[i]? = some name →
        resF[i]? = some { model_name := name, error := some msg }) ∧
    (∃ resT, (ModelAnalyzer.main oT (some (some names)) out).written = some resT ∧
      resT.length = names.length ∧
      ∀ i : ℕ, names[i]? = some name →
        resT[i]? = some { model_name := name, error := some msg }) := by
  have hne : names ≠ [] := List.ne_nil_of_mem hmem
  have hrecF : MainPy.analyze_model oF name = { model_name := name, error := some msg } := by
    unfold MainPy.analyze_model
    rw [hF]
  have hrecT : ModelAnalyzer.analyze_model oT name
      = { model_name := name, error := some msg } := by
    unfold ModelAnalyzer.analyze_model
    rw [hT]
  refine ⟨hrecF, hrecT, ⟨_, batchRun_written_of_ne_nil _ names out hne, List.length_map _ _, ?_⟩,
    ⟨_, batchRun_written_of_ne_nil _ names out hne, List.length_map _ _, ?_⟩⟩
  · intro i hi
    rw [List.getElem?_map, hi]
    simp [hrecF]
  · intro i hi
    rw [List.getElem?_map, hi]
    simp [hrecT]

theorem per_model_failure_isolated_witness :
    fvOracleErr "b" = .error "model not found" ∧
    thOracleErr "b" = .error "model not found" ∧
    "b" ∈ (["a", "b"] : List String) ∧
    (MainPy.analyze_model fvOracleErr "b"
      = { model_name := "b", error := some "model not found" } ∧
    ModelAnalyzer.analyze_model thOracleErr "b"
      = { model_name := "b", error := some "model not found" } ∧
    (∃ resF, (MainPy.main fvOracleErr (some (some ["a", "b"])) "out.json").written
        = some resF ∧
      resF.length = (["a", "b"] : List String).length ∧
      ∀ i : ℕ, (["a", "b"] : List String)[i]? = some "b" →
        resF[i]? = some { model_name := "b", error := some "model not found" }) ∧
    (∃ resT, (ModelAnalyzer.main thOracleErr (some (some ["a", "b"])) "out.json").written
        = some resT ∧
      resT.length = (["a", "b"] : List String).length ∧
      ∀ i : ℕ, (["a", "b"] : List String)[i]? = some "b" →
        resT[i]? = some { model_name := "b", error := some "model not found" })) :=
  ⟨rfl, rfl, by decide,
    per_model_failure_isolated fvOracleErr thOracleErr "b" "model not found" ["a", "b"]
      "out.json" rfl rfl (by decide)⟩

/-- C4: with an explicitly empty models list, both batch entry points print
the no-models message, write no output file (`written = none`), and return
normally (the embedding is a total function; no exception path exists in
this branch of the source). -/
theorem empty_models_list_clean_exit (oF : String → Except String FvcoreOut)
    (oT : String → Except String ThopOut) (out : String) :
    MainPy.main oF (some (some [])) out = noModelsOutput ∧
    ModelAnalyzer.main oT (some (some [])) out = noModelsOutput ∧
    noModelsOutput.printed = ["No models specified in the configuration file."] ∧
    noModelsOutput.written = none :=
  ⟨rfl, rfl, rfl, rfl⟩

/-- C10: a configuration with no `models` key at all (`dict.get` returns the
default `[]`) or with `models:` mapping to YAML `null` (`dict.get` returns
`None`, which is falsy) behaves exactly like an explicitly empty list: the
no-models message, no report file, normal return. -/
theorem missing_or_null_models_key_like_empty (oF : String → Except String FvcoreOut)
    (oT : String → Except String ThopOut) (out : String) :
    MainPy.main oF none out = noModelsOutput ∧
    MainPy.main oF (some none) out = noModelsOutput ∧
    MainPy.main oF none out = MainPy.main oF (some (some [])) out ∧
    MainPy.main oF (some none) out = MainPy.main oF (some (some [])) out ∧
    ModelAnalyzer.main oT none out = noModelsOutput ∧
    ModelAnalyzer.main oT (some none) out = noModelsOutput ∧
    ModelAnalyzer.main oT none out = ModelAnalyzer.main oT (some (some [])) out ∧
    ModelAnalyzer.main oT (some none) out = ModelAnalyzer.main oT (some (some [])) out :=
  ⟨rfl, rfl, rfl, rfl, rfl, rfl, rfl, rfl⟩

/-- Statement that exactly one of two properties holds. -/
def exactlyOne (A B : Prop) : Prop := (A ∧ ¬ B) ∨ (B ∧ ¬ A)

/-- Error side of the C2 invariant: the `error` field is present and no
numeric metric field is. -/
def errorOnly (r : AnalysisRecord) : Prop :=
  r.error.isSome = true ∧ r.total_params = none ∧ r.total_flops = none ∧
  r.total_macs = none ∧ r.flops_by_operator = none ∧ r.flops_by_module = none ∧
  r.gflops = none ∧ r.gmacs = none

/-- Success side of the C2 invariant for the fvcore variant: no `error`, and
all of its numeric metric fields are present and non-negative (for the two
breakdown dicts: every count in them is non-negative). -/
def fvcoreMetricsPresent (r : AnalysisRecord) : Prop :=
  r.error = none ∧
  (∃ p, r.total_params = some p ∧ 0 ≤ p) ∧
  (∃ f, r.total_flops = some f ∧ 0 ≤ f) ∧
  (∃ mc, r.total_macs = some mc ∧ 0 ≤ mc) ∧
  (∃ bo, r.flops_by_operator = some bo ∧ ∀ kv ∈ bo, 0 ≤ kv.2) ∧
  (∃ bm, r.flops_by_module = some bm ∧ ∀ kv ∈ bm, 0 ≤ kv.2)

/-- Success side of the C2 invariant for the thop variant: no `error`, and
all of its numeric metric fields are present and non-negative. -/
def thopMetricsPresent (r : AnalysisRecord) : Prop :=
  r.error = none ∧
  (∃ p, r.total_params = some p ∧ 0 ≤ p) ∧
  (∃ f, r.total_flops = some f ∧ 0 ≤ f) ∧
  (∃ mc, r.total_macs = some mc ∧ 0 ≤ mc) ∧
  (∃ g, r.gflops = some g ∧ 0 ≤ g) ∧
  (∃ gm, r.gmacs = some gm ∧ 0 ≤ gm)

/-- C2: every record returned by `analyze_model` satisfies exactly one of
the error side or the success side of the invariant, in both variants.  For
the thop variant the non-negativity of the profiler's (float) outputs is an
assumption about the external tool; the fvcore counts are naturally `ℕ`. -/
theorem record_metrics_or_error_exactly_one
    (oF : String → Except String FvcoreOut) (oT : String → Except String ThopOut)
    (name : String) (hT : ∀ t, oT name = .ok t → 0 ≤ t.macs ∧ 0 ≤ t.params) :
    exactlyOne (errorOnly (MainPy.analyze_model oF name))
      (fvcoreMetricsPresent (MainPy.analyze_model oF name)) ∧
    exactlyOne (errorOnly (ModelAnalyzer.analyze_model oT name))
      (thopMetricsPresent (ModelAnalyzer.analyze_model oT name)) := by
  constructor
  · cases hf : oF name with
    | ok fv =>
        right
        unfold MainPy.analyze_model
        rw [hf]
        constructor
        · refine ⟨rfl, ⟨_, rfl, by positivity⟩, ⟨_, rfl, by positivity⟩,
            ⟨_, rfl, by positivity⟩, ⟨_, rfl, ?_⟩, ⟨_, rfl, ?_⟩⟩
          · intro kv hkv
            simp only [List.mem_map] at hkv
            obtain ⟨kv0, -, rfl⟩ := hkv
            positivity
          · intro kv hkv
            simp only [List.mem_map] at hkv
            obtain ⟨kv0, -, rfl⟩ := hkv
            positivity
        · rintro ⟨hsome, -⟩
          simp at hsome
    | error e =>
        left
        unfold MainPy.analyze_model
        rw [hf]
        constructor
        · exact ⟨rfl, rfl, rfl, rfl, rfl, rfl, rfl, rfl⟩
        · rintro ⟨hnone, -⟩
          exact Option.noConfusion hnone
  · cases ht : oT name with
    | ok t =>
        obtain ⟨hm, hp⟩ := hT t ht
        right
        unfold ModelAnalyzer.analyze_model
        rw [ht]
        constructor
        · exact ⟨rfl, ⟨_, rfl, pyInt_nonneg hp⟩,
            ⟨_, rfl, pyInt_nonneg (by positivity)⟩, ⟨_, rfl, pyInt_nonneg hm⟩,
            ⟨_, rfl, by positivity⟩, ⟨_, rfl, by positivity⟩⟩
        · rintro ⟨hsome, -⟩
          simp at hsome
    | error e =>
        left
        unfold ModelAnalyzer.analyze_model
        rw [ht]
        constructor
        · exact ⟨rfl, rfl, rfl, rfl, rfl, rfl, rfl, rfl⟩
        · rintro ⟨hnone, -⟩
          exact Option.noConfusion hnone

theorem record_metrics_or_error_exactly_one_witness :
    (∀ t, thOracle1G "a" = .ok t → 0 ≤ t.macs ∧ 0 ≤ t.params) ∧
    (exactlyOne (errorOnly (MainPy.analyze_model fvOracleErr "a"))
      (fvcoreMetricsPresent (MainPy.analyze_model fvOracleErr "a")) ∧
    exactlyOne (errorOnly (ModelAnalyzer.analyze_model thOracle1G "a"))
      (thopMetricsPresent (ModelAnalyzer.analyze_model thOracle1G "a"))) :=
  ⟨fun t ht => by
      obtain rfl := (Except.ok.inj ht).symm
      constructor <;> simp,
   record_metrics_or_error_exactly_one fvOracleErr thOracle1G "a"
     (fun t ht => by
        obtain rfl := (Except.ok.inj ht).symm
        constructor <;> simp)⟩

/-- C6 counterexample: in the fvcore variant `total_macs = total_flops // 2`
uses floor division, so for an odd reported flop count (here 3) the emitted
record has `total_macs = 1` and `total_flops = 3 ≠ 2 * 1`: `total_flops` is
not twice `total_macs` as the claim states. -/
theorem flops_twice_macs_counterexample :
    (MainPy.analyze_model fvOracleOdd "m").total_flops = some 3 ∧
    (MainPy.analyze_model fvOracleOdd "m").total_macs = some 1 ∧
    (MainPy.analyze_model fvOracleOdd "m").total_flops
      ≠ (MainPy.analyze_model fvOracleOdd "m").total_macs.map (fun z => 2 * z) := by
  decide

theorem fv_analyze_ok (o : String → Except String FvcoreOut) (n : String)
    (fv : FvcoreOut) (h : o n = .ok fv) :
    MainPy.analyze_model o n =
      { model_name := n
        total_params := some (fv.total_params : ℤ)
        total_flops := some (fv.total_flops : ℤ)
        total_macs := some ((fv.total_flops / 2 : ℕ) : ℤ)
        flops_by_operator := some (fv.by_operator.map (fun kv => (kv.1, (kv.2 : ℤ))))
        flops_by_module := some (fv.by_module.map (fun kv => (kv.1, (kv.2 : ℤ)))) } := by
  unfold MainPy.analyze_model
  rw [h]

theorem th_analyze_ok (o : String → Except String ThopOut) (n : String)
    (t : ThopOut) (h : o n = .ok t) :
    ModelAnalyzer.analyze_model o n =
      { model_name := n
        total_params := some (pyInt t.params)
        total_flops := some (pyInt (t.macs * 2))
        total_macs := some (pyInt t.macs)
        gflops := some ((t.macs * 2) / 1000000000)
        gmacs := some (t.macs / 1000000000) } := by
  unfold ModelAnalyzer.analyze_model
  rw [h]

/-- C6 amended: in the fvcore variant `total_macs = total_flops // 2` (floor
division), hence `total_flops = 2 * total_macs` holds whenever the reported
flop count is even; in the thop variant, whenever the profiled MAC count is
an integer `m`, `total_macs = m` and `total_flops = 2 * m` exactly.  In the
claim's concrete scenario (reported flops = 2,000,000,000, i.e. macs =
1,000,000,000) the records carry `total_macs = 1000000000`,
`total_flops = 2000000000`, `gflops = 2.0` and `gmacs = 1.0`. -/
theorem macs_are_floor_half_of_flops
    (oF : String → Except String FvcoreOut) (oT : String → Except String ThopOut)
    (name : String) (fv : FvcoreOut) (t : ThopOut) (m : ℕ)
    (hF : oF name = .ok fv) (hT : oT name = .ok t) (hm : t.macs = (m : ℚ)) :
    (MainPy.analyze_model oF name).total_macs = some ((fv.total_flops / 2 : ℕ) : ℤ) ∧
    (fv.total_flops % 2 = 0 →
      (MainPy.analyze_model oF name).total_flops
        = (MainPy.analyze_model oF name).total_macs.map (fun z => 2 * z)) ∧
    (ModelAnalyzer.analyze_model oT name).total_macs = some (m : ℤ) ∧
    (ModelAnalyzer.analyze_model oT name).total_flops = some (2 * (m : ℤ)) ∧
    (ModelAnalyzer.analyze_model oT name).total_flops
      = (ModelAnalyzer.analyze_model oT name).total_macs.map (fun z => 2 * z) ∧
    (MainPy.analyze_model fvOracle2G "a").total_flops = some 2000000000 ∧
    (MainPy.analyze_model fvOracle2G "a").total_macs = some 1000000000 ∧
    (ModelAnalyzer.analyze_model thOracle1G "a").total_flops = some 2000000000 ∧
    (ModelAnalyzer.analyze_model thOracle1G "a").total_macs = some 1000000000 ∧
    (ModelAnalyzer.analyze_model thOracle1G "a").gflops = some 2 ∧
    (ModelAnalyzer.analyze_model thOracle1G "a").gmacs = some 1 := by
  rw [fv_analyze_ok oF name fv hF, th_analyze_ok oT name t hT,
    fv_analyze_ok fvOracle2G "a"
      ⟨1000000, 2000000000, [("conv", 2000000000)], [("model", 2000000000)]⟩ rfl,
    th_analyze_ok thOracle1G "a" ⟨((1000000000 : ℕ) : ℚ), ((1000000 : ℕ) : ℚ)⟩ rfl]
  refine ⟨rfl, ?_, ?_, ?_, ?_, by norm_num, by norm_num, ?_, ?_, ?_, ?_⟩
  · intro he
    have h2 : 2 * (fv.total_flops / 2) = fv.total_flops :=
      Nat.mul_div_cancel' (Nat.dvd_of_mod_eq_zero he)
    show (some (fv.total_flops : ℤ) : Option ℤ) = some (2 * ((fv.total_flops / 2 : ℕ) : ℤ))
    exact congrArg some (by exact_mod_cast h2.symm)
  · show some (pyInt t.macs) = some ((m : ℕ) : ℤ)
    rw [hm, pyInt_natCast]
  · show some (pyInt (t.macs * 2)) = some (2 * (m : ℤ))
    rw [hm, pyInt_natCast_mul_two]
  · show some (pyInt (t.macs * 2)) = some (2 * pyInt t.macs)
    rw [hm, pyInt_natCast, pyInt_natCast_mul_two]
  · show some (pyInt (((1000000000 : ℕ) : ℚ) * 2)) = some 2000000000
    rw [pyInt_natCast_mul_two]
    norm_num
  · show some (pyInt ((1000000000 : ℕ) : ℚ)) = some 1000000000
    rw [pyInt_natCast]
    norm_num
  · show some ((((1000000000 : ℕ) : ℚ) * 2) / 1000000000) = some 2
    push_cast
    norm_num
  · show some (((1000000000 : ℕ) : ℚ) / 1000000000) = some 1
    push_cast
    norm_num

theorem macs_are_floor_half_of_flops_witness :
    fvOracle2G "a"
      = .ok ⟨1000000, 2000000000, [("conv", 2000000000)], [("model", 2000000000)]⟩ ∧
    thOracle1G "a" = .ok ⟨((1000000000 : ℕ) : ℚ), ((1000000 : ℕ) : ℚ)⟩ ∧
    ((⟨((1000000000 : ℕ) : ℚ), ((1000000 : ℕ) : ℚ)⟩ : ThopOut).macs
      = ((1000000000 : ℕ) : ℚ)) ∧
    ((MainPy.analyze_model fvOracle2G "a").total_macs
      = some ((((⟨1000000, 2000000000, [("conv", 2000000000)],
          [("model", 2000000000)]⟩ : FvcoreOut).total_flops / 2 : ℕ)) : ℤ) ∧
    ((⟨1000000, 2000000000, [("conv", 2000000000)],
        [("model", 2000000000)]⟩ : FvcoreOut).total_flops % 2 = 0 →
      (MainPy.analyze_model fvOracle2G "a").total_flops
        = (MainPy.analyze_model fvOracle2G "a").total_macs.map (fun z => 2 * z)) ∧
    (ModelAnalyzer.analyze_model thOracle1G "a").total_macs
      = some ((1000000000 : ℕ) : ℤ) ∧
    (ModelAnalyzer.analyze_model thOracle1G "a").total_flops
      = some (2 * ((1000000000 : ℕ) : ℤ)) ∧
    (ModelAnalyzer.analyze_model thOracle1G "a").total_flops
      = (ModelAnalyzer.analyze_model thOracle1G "a").total_macs.map (fun z => 2 * z) ∧
    (MainPy.analyze_model fvOracle2G "a").total_flops = some 2000000000 ∧
    (MainPy.analyze_model fvOracle2G "a").total_macs = some 1000000000 ∧
    (ModelAnalyzer.analyze_model thOracle1G "a").total_flops = some 2000000000 ∧
    (ModelAnalyzer.analyze_model thOracle1G "a").total_macs = some 1000000000 ∧
    (ModelAnalyzer.analyze_model thOracle1G "a").gflops = some 2 ∧
    (ModelAnalyzer.analyze_model thOracle1G "a").gmacs = some 1) :=
  ⟨rfl, rfl, rfl,
    macs_are_floor_half_of_flops fvOracle2G thOracle1G "a"
      ⟨1000000, 2000000000, [("conv", 2000000000)], [("model", 2000000000)]⟩
      ⟨((1000000000 : ℕ) : ℚ), ((1000000 : ℕ) : ℚ)⟩ 1000000000 rfl rfl rfl⟩

/-- C7 counterexample: on the same identifier, the same input shape and
corresponding underlying counts (fvcore reporting 2,000,000,000 flops, thop
reporting the matching 1,000,000,000 macs, both with 1,000,000 params), the
two variants do NOT produce records with the same fields: the fvcore record
has `flops_by_operator` / `flops_by_module` but no `gflops`, the thop record
has `gflops` / `gmacs` but no breakdowns. -/
theorem variant_field_sets_differ_counterexample :
    (MainPy.analyze_model fvOracle2G "a").presentFields
      ≠ (ModelAnalyzer.analyze_model thOracle1G "a").presentFields ∧
    (MainPy.analyze_model fvOracle2G "a").gflops = none ∧
    (ModelAnalyzer.analyze_model thOracle1G "a").gflops.isSome = true ∧
    (MainPy.analyze_model fvOracle2G "a").flops_by_operator.isSome = true ∧
    (ModelAnalyzer.analyze_model thOracle1G "a").flops_by_operator = none := by
  decide

/-- C7 amended: the two variants agree on the information carried by their
shared fields — `model_name`, `total_params`, `total_flops`, `total_macs` —
whenever the underlying counts correspond (equal integer parameter counts
and fvcore's flop total equal to twice thop's mac count), but their records
are not field-for-field equivalent: the field sets always differ on a
successful analysis (breakdown dicts vs. gflops/gmacs). -/
theorem variants_agree_on_shared_fields
    (oF : String → Except String FvcoreOut) (oT : String → Except String ThopOut)
    (name : String) (fv : FvcoreOut) (t : ThopOut) (p m : ℕ)
    (hF : oF name = .ok fv) (hT : oT name = .ok t)
    (hp : fv.total_params = p) (hf : fv.total_flops = 2 * m)
    (hpt : t.params = (p : ℚ)) (hmt : t.macs = (m : ℚ)) :
    (MainPy.analyze_model oF name).model_name
      = (ModelAnalyzer.analyze_model oT name).model_name ∧
    (MainPy.analyze_model oF name).total_params
      = (ModelAnalyzer.analyze_model oT name).total_params ∧
    (MainPy.analyze_model oF name).total_flops
      = (ModelAnalyzer.analyze_model oT name).total_flops ∧
    (MainPy.analyze_model oF name).total_macs
      = (ModelAnalyzer.analyze_model oT name).total_macs ∧
    (MainPy.analyze_model oF name).presentFields
      ≠ (ModelAnalyzer.analyze_model oT name).presentFields := by
  rw [fv_analyze_ok oF name fv hF, th_analyze_ok oT name t hT]
  refine ⟨rfl, ?_, ?_, ?_, ?_⟩
  · show some ((fv.total_params : ℕ) : ℤ) = some (pyInt t.params)
    rw [hp, hpt, pyInt_natCast]
  · show some ((fv.total_flops : ℕ) : ℤ) = some (pyInt (t.macs * 2))
    rw [hf, hmt, pyInt_natCast_mul_two]
    push_cast
    ring_nf
  · show some (((fv.total_flops / 2 : ℕ)) : ℤ) = some (pyInt t.macs)
    rw [hf, hmt, pyInt_natCast, Nat.mul_div_cancel_left m (by norm_num)]
  · simp [AnalysisRecord.presentFields]

theorem variants_agree_on_shared_fields_witness :
    fvOracle2G "a"
      = .ok ⟨1000000, 2000000000, [("conv", 2000000000)], [("model", 2000000000)]⟩ ∧
    thOracle1G "a" = .ok ⟨((1000000000 : ℕ) : ℚ), ((1000000 : ℕ) : ℚ)⟩ ∧
    ((⟨1000000, 2000000000, [("conv", 2000000000)],
        [("model", 2000000000)]⟩ : FvcoreOut).total_params = 1000000) ∧
    ((⟨1000000, 2000000000, [("conv", 2000000000)],
        [("model", 2000000000)]⟩ : FvcoreOut).total_flops = 2 * 1000000000) ∧
    ((⟨((1000000000 : ℕ) : ℚ), ((1000000 : ℕ) : ℚ)⟩ : ThopOut).params
      = ((1000000 : ℕ) : ℚ)) ∧
    ((⟨((1000000000 : ℕ) : ℚ), ((1000000 : ℕ) : ℚ)⟩ : ThopOut).macs
      = ((1000000000 : ℕ) : ℚ)) ∧
    ((MainPy.analyze_model fvOracle2G "a").model_name
      = (ModelAnalyzer.analyze_model thOracle1G "a").model_name ∧
    (MainPy.analyze_model fvOracle2G "a").total_params
      = (ModelAnalyzer.analyze_model thOracle1G "a").total_params ∧
    (MainPy.analyze_model fvOracle2G "a").total_flops
      = (ModelAnalyzer.analyze_model thOracle1G "a").total_flops ∧
    (MainPy.analyze_model fvOracle2G "a").total_macs
      = (ModelAnalyzer.analyze_model thOracle1G "a").total_macs ∧
    (MainPy.analyze_model fvOracle2G "a").presentFields
      ≠ (ModelAnalyzer.analyze_model thOracle1G "a").presentFields) :=
  ⟨rfl, rfl, rfl, by norm_num, rfl, rfl,
    variants_agree_on_shared_fields fvOracle2G thOracle1G "a"
      ⟨1000000, 2000000000, [("conv", 2000000000)], [("model", 2000000000)]⟩
      ⟨((1000000000 : ℕ) : ℚ), ((1000000 : ℕ) : ℚ)⟩ 1000000 1000000000
      rfl rfl rfl (by norm_num) rfl rfl⟩

theorem zip_self_map {α β : Type} (l : List α) (f : α → β) :
    l.zip (l.map f) = l.map (fun a => (a, f a)) := by
  induction l with
  | nil => rfl
  | cons a rest ih => simp [ih]

theorem extractMetric_params_eq (models : List AnalysisRecord)
    (h : ∀ m ∈ models, m.total_params.isSome) :
    extractMetric models "total_params"
      = some (models.map (fun r => ((r.total_params.getD 0 : ℤ) : ℚ))) := by
  induction models with
  | nil => rfl
  | cons r rest ih =>
      obtain ⟨p, hp⟩ := Option.isSome_iff_exists.mp (h r (List.mem_cons_self r rest))
      have ihh := ih (fun m hm => h m (List.mem_cons_of_mem r hm))
      simp [extractMetric, getMetric, hp, ihh]

theorem create_bar_plot_params_eq (models : List AnalysisRecord)
    (h : ∀ m ∈ models, m.total_params.isSome) :
    Plot.create_bar_plot models "total_params"
      = some (models.map (fun r =>
          { label := r.model_name,
            value := ((r.total_params.getD 0 : ℤ) : ℚ) / 1000000,
            annot := fmtTwoDec (((r.total_params.getD 0 : ℤ) : ℚ) / 1000000) })) := by
  rw [Plot.create_bar_plot, extractMetric_params_eq models h]
  simp [List.map_map, zip_self_map, Function.comp]

theorem fmtTwoDec_one : fmtTwoDec 1 = "1.00" := by
  simp only [fmtTwoDec, roundHalfEven100, Rat.num_one, Rat.den_one]
  decide

/-- Record of the spec's concrete scenario: model "a" analysed successfully
with 1,000,000 parameters and 2,000,000,000 flops. -/
def recA : AnalysisRecord :=
  { model_name := "a", total_params := some 1000000, total_flops := some 2000000000,
    total_macs := some 1000000000, gflops := some 2, gmacs := some 1 }

theorem extractMetric_gflops_eq (models : List AnalysisRecord)
    (h : ∀ m ∈ models, m.gflops.isSome) :
    extractMetric models "gflops" = some (models.map (fun r => r.gflops.getD 0)) := by
  induction models with
  | nil => rfl
  | cons r rest ih =>
      obtain ⟨g, hg⟩ := Option.isSome_iff_exists.mp (h r (List.mem_cons_self r rest))
      have ihh := ih (fun m hm => h m (List.mem_cons_of_mem r hm))
      simp [extractMetric, getMetric, hg, ihh]

theorem create_bar_plot_gflops_eq (models : List AnalysisRecord)
    (h : ∀ m ∈ models, m.gflops.isSome) :
    Plot.create_bar_plot models "gflops"
      = some (models.map (fun r =>
          { label := r.model_name, value := r.gflops.getD 0,
            annot := fmtTwoDec (r.gflops.getD 0) })) := by
  rw [Plot.create_bar_plot, extractMetric_gflops_eq models h]
  simp [List.map_map, zip_self_map, Function.comp]

theorem fmtTwoDec_two : fmtTwoDec 2 = "2.00" := by
  simp only [fmtTwoDec, roundHalfEven100, Rat.num_ofNat, Rat.den_ofNat]
  decide

/-- C8: each of the two rendered bar charts (the parameters chart and the
gflops chart, `plot_model_analysis.py` lines 117–118) has exactly one bar
per valid record; the parameter metric is divided by 1,000,000 before
plotting while gflops is plotted as is, and each bar is annotated above it
with its value formatted to two decimal places.  For the concrete
one-record report with 1,000,000 parameters the parameters chart is a
single bar labelled "a" with height 1 annotated "1.00" (and the gflops
chart a single bar of height 2 annotated "2.00"). -/
theorem bar_chart_one_bar_per_valid_record (models : List AnalysisRecord)
    (hp : ∀ m ∈ models, m.total_params.isSome)
    (hg : ∀ m ∈ models, m.gflops.isSome) :
    (∃ bars, Plot.create_bar_plot models "total_params" = some bars ∧
      bars.length = models.length ∧
      ∀ i : ℕ, ∀ r, models[i]? = some r → ∃ p, r.total_params = some p ∧
        bars[i]? = some { label := r.model_name, value := (p : ℚ) / 1000000,
                          annot := fmtTwoDec ((p : ℚ) / 1000000) }) ∧
    (∃ bars, Plot.create_bar_plot models "gflops" = some bars ∧
      bars.length = models.length ∧
      ∀ i : ℕ, ∀ r, models[i]? = some r → ∃ g, r.gflops = some g ∧
        bars[i]? = some { label := r.model_name, value := g,
                          annot := fmtTwoDec g }) ∧
    Plot.create_bar_plot [recA] "total_params"
      = some [{ label := "a", value := 1, annot := "1.00" }] ∧
    Plot.create_bar_plot [recA] "gflops"
      = some [{ label := "a", value := 2, annot := "2.00" }] := by
  refine ⟨?_, ?_, ?_, ?_⟩
  · refine ⟨_, create_bar_plot_params_eq models hp, by simp, ?_⟩
    intro i r hir
    have hmem : r ∈ models := List.getElem?_mem hir
    obtain ⟨p, hpp⟩ := Option.isSome_iff_exists.mp (hp r hmem)
    refine ⟨p, hpp, ?_⟩
    rw [List.getElem?_map, hir]
    simp [hpp]
  · refine ⟨_, create_bar_plot_gflops_eq models hg, by simp, ?_⟩
    intro i r hir
    have hmem : r ∈ models := List.getElem?_mem hir
    obtain ⟨g, hgg⟩ := Option.isSome_iff_exists.mp (hg r hmem)
    refine ⟨g, hgg, ?_⟩
    rw [List.getElem?_map, hir]
    simp [hgg]
  · rw [create_bar_plot_params_eq [recA] (by decide)]
    have hv : (((1000000 : ℤ) : ℚ)) / 1000000 = 1 := by norm_num
    simp [recA, hv, fmtTwoDec_one]
  · rw [create_bar_plot_gflops_eq [recA] (by decide)]
    simp [recA, fmtTwoDec_two]

theorem bar_chart_one_bar_per_valid_record_witness :
    (∀ m ∈ [recA], m.total_params.isSome) ∧
    (∀ m ∈ [recA], m.gflops.isSome) ∧
    ((∃ bars, Plot.create_bar_plot [recA] "total_params" = some bars ∧
      bars.length = [recA].length ∧
      ∀ i : ℕ, ∀ r, [recA][i]? = some r → ∃ p, r.total_params = some p ∧
        bars[i]? = some { label := r.model_name, value := (p : ℚ) / 1000000,
                          annot := fmtTwoDec ((p : ℚ) / 1000000) }) ∧
    (∃ bars, Plot.create_bar_plot [recA] "gflops" = some bars ∧
      bars.length = [recA].length ∧
      ∀ i : ℕ, ∀ r, [recA][i]? = some r → ∃ g, r.gflops = some g ∧
        bars[i]? = some { label := r.model_name, value := g,
                          annot := fmtTwoDec g }) ∧
    Plot.create_bar_plot [recA] "total_params"
      = some [{ label := "a", value := 1, annot := "1.00" }] ∧
    Plot.create_bar_plot [recA] "gflops"
      = some [{ label := "a", value := 2, annot := "2.00" }]) :=
  ⟨by decide, by decide,
    bar_chart_one_bar_per_valid_record [recA] (by decide) (by decide)⟩

theorem lookupKey_cons_ne {k1 k : String} (h : (k1 == k) = false) (j : Json)
    (rest : List (String × Json)) :
    lookupKey ((k1, j) :: rest) k = lookupKey rest k := by
  simp [lookupKey, h]

theorem lookupKey_optField_ne {k2 k : String} (h : (k2 == k) = false)
    (v : Option Json) (rest : List (String × Json)) :
    lookupKey (optField k2 v ++ rest) k = lookupKey rest k := by
  cases v <;> simp [optField, lookupKey, h]

theorem lookupKey_optField_self (k : String) (v : Option Json)
    (rest : List (String × Json)) (hrest : lookupKey rest k = none) :
    lookupKey (optField k v ++ rest) k = v := by
  cases v <;> simp [optField, lookupKey, hrest]

theorem lookupKey_optField_ne_nil {k2 k : String} (h : (k2 == k) = false)
    (v : Option Json) :
    lookupKey (optField k2 v) k = none := by
  cases v <;> simp [optField, lookupKey, h]

theorem lookupKey_optField_self_nil (k : String) (v : Option Json) :
    lookupKey (optField k v) k = v := by
  cases v <;> simp [optField, lookupKey]

theorem lookup_model_name (r : AnalysisRecord) :
    lookupKey (recordEntries r) "model_name" = some (Json.str r.model_name) := by
  simp [recordEntries, lookupKey]

theorem lookup_total_params (r : AnalysisRecord) :
    lookupKey (recordEntries r) "total_params"
      = r.total_params.map (fun n => Json.num (n : ℚ)) := by
  simp [recordEntries, lookupKey_cons_ne, lookupKey_optField_ne, lookupKey_optField_self,
    lookupKey_optField_ne_nil, lookupKey_optField_self_nil]

theorem lookup_total_flops (r : AnalysisRecord) :
    lookupKey (recordEntries r) "total_flops"
      = r.total_flops.map (fun n => Json.num (n : ℚ)) := by
  simp [recordEntries, lookupKey_cons_ne, lookupKey_optField_ne, lookupKey_optField_self,
    lookupKey_optField_ne_nil, lookupKey_optField_self_nil]

theorem lookup_total_macs (r : AnalysisRecord) :
    lookupKey (recordEntries r) "total_macs"
      = r.total_macs.map (fun n => Json.num (n : ℚ)) := by
  simp [recordEntries, lookupKey_cons_ne, lookupKey_optField_ne, lookupKey_optField_self,
    lookupKey_optField_ne_nil, lookupKey_optField_self_nil]

theorem lookup_flops_by_operator (r : AnalysisRecord) :
    lookupKey (recordEntries r) "flops_by_operator"
      = r.flops_by_operator.map (fun l => Json.obj (intEntries l)) := by
  simp [recordEntries, lookupKey_cons_ne, lookupKey_optField_ne, lookupKey_optField_self,
    lookupKey_optField_ne_nil, lookupKey_optField_self_nil]

theorem lookup_flops_by_module (r : AnalysisRecord) :
    lookupKey (recordEntries r) "flops_by_module"
      = r.flops_by_module.map (fun l => Json.obj (intEntries l)) := by
  simp [recordEntries, lookupKey_cons_ne, lookupKey_optField_ne, lookupKey_optField_self,
    lookupKey_optField_ne_nil, lookupKey_optField_self_nil]

theorem lookup_gflops (r : AnalysisRecord) :
    lookupKey (recordEntries r) "gflops" = r.gflops.map Json.num := by
  simp [recordEntries, lookupKey_cons_ne, lookupKey_optField_ne, lookupKey_optField_self,
    lookupKey_optField_ne_nil, lookupKey_optField_self_nil]

theorem lookup_gmacs (r : AnalysisRecord) :
    lookupKey (recordEntries r) "gmacs" = r.gmacs.map Json.num := by
  simp [recordEntries, lookupKey_cons_ne, lookupKey_optField_ne, lookupKey_optField_self,
    lookupKey_optField_ne_nil, lookupKey_optField_self_nil]

theorem lookup_error_key (r : AnalysisRecord) :
    lookupKey (recordEntries r) "error" = r.error.map Json.str := by
  simp [recordEntries, lookupKey_cons_ne, lookupKey_optField_ne, lookupKey_optField_self,
    lookupKey_optField_ne_nil, lookupKey_optField_self_nil]

theorem decodeIntEntries_intEntries (l : List (String × ℤ)) :
    decodeIntEntries (intEntries l) = some l := by
  induction l with
  | nil => rfl
  | cons kv rest ih =>
      show decodeIntEntries ((kv.1, Json.num (kv.2 : ℚ)) :: intEntries rest)
        = some (kv :: rest)
      simp [decodeIntEntries, asInt, Rat.den_intCast, Rat.num_intCast, ih]

theorem decodeOptInt_total_params (r : AnalysisRecord) :
    decodeOptInt (recordEntries r) "total_params" = some r.total_params := by
  simp only [decodeOptInt, lookup_total_params]
  cases r.total_params with
  | none => rfl
  | some n => simp [asInt, Rat.den_intCast, Rat.num_intCast]

theorem decodeOptInt_total_flops (r : AnalysisRecord) :
    decodeOptInt (recordEntries r) "total_flops" = some r.total_flops := by
  simp only [decodeOptInt, lookup_total_flops]
  cases r.total_flops with
  | none => rfl
  | some n => simp [asInt, Rat.den_intCast, Rat.num_intCast]

theorem decodeOptInt_total_macs (r : AnalysisRecord) :
    decodeOptInt (recordEntries r) "total_macs" = some r.total_macs := by
  simp only [decodeOptInt, lookup_total_macs]
  cases r.total_macs with
  | none => rfl
  | some n => simp [asInt, Rat.den_intCast, Rat.num_intCast]

theorem decodeOptMap_flops_by_operator (r : AnalysisRecord) :
    decodeOptMap (recordEntries r) "flops_by_operator" = some r.flops_by_operator := by
  simp only [decodeOptMap, lookup_flops_by_operator]
  cases r.flops_by_operator with
  | none => rfl
  | some l => simp [decodeIntEntries_intEntries]

theorem decodeOptMap_flops_by_module (r : AnalysisRecord) :
    decodeOptMap (recordEntries r) "flops_by_module" = some r.flops_by_module := by
  simp only [decodeOptMap, lookup_flops_by_module]
  cases r.flops_by_module with
  | none => rfl
  | some l => simp [decodeIntEntries_intEntries]

theorem decodeOptRat_gflops (r : AnalysisRecord) :
    decodeOptRat (recordEntries r) "gflops" = some r.gflops := by
  simp only [decodeOptRat, lookup_gflops]
  cases r.gflops with
  | none => rfl
  | some q => rfl

theorem decodeOptRat_gmacs (r : AnalysisRecord) :
    decodeOptRat (recordEntries r) "gmacs" = some r.gmacs := by
  simp only [decodeOptRat, lookup_gmacs]
  cases r.gmacs with
  | none => rfl
  | some q => rfl

theorem decodeOptStr_error_key (r : AnalysisRecord) :
    decodeOptStr (recordEntries r) "error" = some r.error := by
  simp only [decodeOptStr, lookup_error_key]
  cases r.error with
  | none => rfl
  | some s => rfl

theorem jsonToRecord_roundtrip (r : AnalysisRecord) :
    jsonToRecord (recordToJson r) = some r := by
  rw [recordToJson]
  simp only [jsonToRecord, lookup_model_name, decodeOptInt_total_params,
    decodeOptInt_total_flops, decodeOptInt_total_macs, decodeOptMap_flops_by_operator,
    decodeOptMap_flops_by_module, decodeOptRat_gflops, decodeOptRat_gmacs,
    decodeOptStr_error_key]

theorem decodeRecords_roundtrip (rs : List AnalysisRecord) :
    decodeRecords (rs.map recordToJson) = some rs := by
  induction rs with
  | nil => rfl
  | cons r rest ih => simp [decodeRecords, jsonToRecord_roundtrip, ih]

/-- C9: serializing a report (list of records) with the batch runner's
writer and parsing it back with the renderer's loader, before any
filtering, yields the same sequence of records, field for field and in the
same order. -/
theorem report_json_roundtrip (rs : List AnalysisRecord) :
    jsonToReport (reportToJson rs) = some rs := by
  simp only [reportToJson, jsonToReport]
  exact decodeRecords_roundtrip rs

/-- Record of a model whose analysis failed (error slot of the concrete
scenario). -/
def recErrB : AnalysisRecord := { model_name := "b", error := some "model not found" }

/-- C5: the renderer's loader keeps exactly the loaded records that have no
`error` key; and when that filtered set is empty the renderer prints the
no-valid-models message and returns without producing any image file
(neither the grid PNG nor any individual PNG). -/
theorem renderer_no_valid_records_no_images
    (j : Json) (data : List AnalysisRecord) (h : jsonToReport j = some data) :
    Plot.load_model_analysis j = some (data.filter (fun m => m.error.isNone)) ∧
    (data.filter (fun m => m.error.isNone) = [] →
      Plot.main j = .ok { printed := ["No valid models found in the JSON file."],
                          images := [] }) := by
  constructor
  · simp [Plot.load_model_analysis, h]
  · intro he
    unfold Plot.main
    rw [show Plot.load_model_analysis j = some [] by
      simp [Plot.load_model_analysis, h, he]]
    rfl

theorem renderer_no_valid_records_no_images_witness :
    jsonToReport (reportToJson [recErrB]) = some [recErrB] ∧
    (Plot.load_model_analysis (reportToJson [recErrB])
        = some (([recErrB]).filter (fun m => m.error.isNone)) ∧
    (([recErrB]).filter (fun m => m.error.isNone) = [] →
      Plot.main (reportToJson [recErrB])
        = .ok { printed := ["No valid models found in the JSON file."], images := [] })) :=
  ⟨by rfl, renderer_no_valid_records_no_images (reportToJson [recErrB]) [recErrB] (by rfl)⟩
